import Mathlib

/-!
Verification of `apputils/checkpoint.py` (distiller): `save_checkpoint` and
`load_checkpoint`, shallowly embedded.

Modelling choices:
* Tensors are bit-exact value sequences (`List Int`); `state_dict` mappings are
  association lists, matching Python dict insertion order.
* The checkpoint record built by `save_checkpoint` is an association list
  `String × V` where `V` covers the kinds of values the code stores, so that
  claims about key presence are directly expressible.
* The file system is explicit state: an association list filename → record,
  newest write first.  `torch.save` is a write, `shutil.copyfile` re-reads the
  source file and writes its contents to the destination, `os.path.isfile` is a
  lookup test.  Serialization is the identity on records (`torch.save` /
  `torch.load` round-trip faithfully).
* `exit(1)`, `KeyError` and `TypeError` are outcome constructors carrying the
  states of the mutable arguments at the moment of termination.
* The external collaborators `distiller.CompressionScheduler` (construction and
  `load_state_dict`) and `distiller.execute_thinning_recipe` are not part of
  this file's code; they are universally quantified function parameters of
  `load_checkpoint`, so every theorem holds for any implementation of them.
* Logging: the lines relevant to the claims are recorded as an event trace.
-/

namespace DistillerCheckpoint

/-- A tensor, modelled as its exact sequence of stored values. -/
abbrev Tensor := List Int

/-- A model `state_dict`: parameter name → tensor. -/
abbrev StateDict := List (String × Tensor)

/-- Serialized optimizer state (opaque payload). -/
abbrev OptState := List Int

/-- Serialized compression-scheduler state (opaque payload). -/
abbrev SchedState := List Int

/-- A thinning recipe (opaque payload). -/
abbrev Recipe := List Int

/-- The scheduler's zeros-mask dictionary (opaque payload). -/
abbrev MaskDict := List (String × Tensor)

/-- A pytorch model, as this module uses it: it exports a `state_dict`, can
load one in place, and optionally exposes a `thinning_recipe` attribute
(`hasattr(model, 'thinning_recipe')` is `isSome`). -/
structure PModel where
  sd : StateDict
  thinning_recipe : Option Recipe
deriving DecidableEq, Repr

/-- Python `model.state_dict()`. -/
def PModel.state_dict (m : PModel) : StateDict := m.sd

/-- Python `model.load_state_dict(d)`: in-place assignment of the parameters. -/
def PModel.load_state_dict (m : PModel) (d : StateDict) : PModel :=
  { m with sd := d }

/-- A pytorch optimizer, as this module uses it: it exports a `state_dict`. -/
structure POptimizer where
  ostate : OptState
deriving DecidableEq, Repr

/-- Python `optimizer.state_dict()`. -/
def POptimizer.state_dict (o : POptimizer) : OptState := o.ostate

/-- A `distiller.CompressionScheduler`: exports a `state_dict` and owns a
`zeros_mask_dict` passed to the thinning-recipe executor. -/
structure PSched where
  sched_state : SchedState
  zeros_mask_dict : MaskDict
deriving DecidableEq, Repr

/-- Python `scheduler.state_dict()`. -/
def PSched.state_dict (s : PSched) : SchedState := s.sched_state

/-- The kinds of values the checkpoint dict stores. -/
inductive V where
  | int (n : Int)
  | str (s : String)
  | sdict (d : StateDict)
  | num (q : Rat)
  | opt (o : OptState)
  | sched (st : SchedState)
  | recipe (r : Recipe)
deriving DecidableEq, Repr

/-- A checkpoint record: a Python dict in insertion order. -/
abbrev Dict := List (String × V)

/-- Dict lookup (`d[k]` / `k in d` / `d.get(k, None)`). -/
def dlookup : Dict → String → Option V
  | [], _ => none
  | (k, v) :: rest, key => if k = key then some v else dlookup rest key

/-- The keys of a record. -/
def dkeys (d : Dict) : List String := d.map Prod.fst

/-- The file system: filename → serialized record, newest write first. -/
abbrev FS := List (String × Dict)

/-- Read a file's contents, if the file exists. -/
def fsRead : FS → String → Option Dict
  | [], _ => none
  | (k, v) :: rest, key => if k = key then some v else fsRead rest key

/-- Python `torch.save(d, nm)`: (over)write file `nm` with record `d`. -/
def fsWrite (fs : FS) (nm : String) (d : Dict) : FS := (nm, d) :: fs

/-- Python `shutil.copyfile(src, dst)`: write the contents of `src` to `dst`.
In `save_checkpoint` the source was just written, so it always exists;
on a missing source (Python would raise) the state is left unchanged. -/
def copyfile (fs : FS) (src dst : String) : FS :=
  match fsRead fs src with
  | some d => fsWrite fs dst d
  | none => fs

/-- Source line `'checkpoint.pth.tar' if name is None else name + '_checkpoint.pth.tar'`. -/
def checkpointFilename (name : Option String) : String :=
  match name with
  | none => "checkpoint.pth.tar"
  | some n => n ++ "_checkpoint.pth.tar"

/-- Source line `'best.pth.tar' if name is None else name + '_best.pth.tar'`. -/
def bestFilename (name : Option String) : String :=
  match name with
  | none => "best.pth.tar"
  | some n => n ++ "_best.pth.tar"

/-- The record `save_checkpoint` assembles, in insertion order:
`epoch`, `arch`, `state_dict`, conditionally `best_top1`, `optimizer`,
conditionally `compression_sched`, conditionally `thinning_recipe`. -/
def buildCheckpoint (epoch : Int) (arch : String) (model : PModel)
    (optimizer : POptimizer) (scheduler : Option PSched)
    (best_top1 : Option Rat) : Dict :=
  [("epoch", V.int epoch), ("arch", V.str arch),
   ("state_dict", V.sdict model.state_dict)]
  ++ (match best_top1 with
      | some b => [("best_top1", V.num b)]
      | none => [])
  ++ [("optimizer", V.opt optimizer.state_dict)]
  ++ (match scheduler with
      | some s => [("compression_sched", V.sched s.state_dict)]
      | none => [])
  ++ (match model.thinning_recipe with
      | some r => [("thinning_recipe", V.recipe r)]
      | none => [])

/-- Python `save_checkpoint(epoch, arch, model, optimizer, scheduler, best_top1,
is_best, name)`: assemble the record, write it to the checkpoint file, and if
`is_best` copy that file to the best-named file. -/
def save_checkpoint (epoch : Int) (arch : String) (model : PModel)
    (optimizer : POptimizer) (scheduler : Option PSched)
    (best_top1 : Option Rat) (is_best : Bool) (name : Option String)
    (fs : FS) : FS :=
  let filename := checkpointFilename name
  let filename_best := bestFilename name
  let checkpoint := buildCheckpoint epoch arch model optimizer scheduler best_top1
  let fs1 := fsWrite fs filename checkpoint
  if is_best then copyfile fs1 filename filename_best else fs1

/-- The logged lines of `load_checkpoint` that the claims refer to. -/
inductive Event where
  | bestLogged
  | schedLoadedFromCheckpoint
  | recipeExecuted
  | warnNoCompressionSched
deriving DecidableEq, Repr

/-- How a `load_checkpoint` call ends.  Error constructors carry the states of
the mutable arguments at the moment of termination. -/
inductive LoadOutcome where
  | exit (code : Nat) (model : PModel) (optimizer : Option POptimizer)
  | keyError (key : String) (model : PModel) (optimizer : Option POptimizer)
  | typeError (model : PModel) (optimizer : Option POptimizer)
  | ok (model : PModel) (scheduler : Option PSched) (start_epoch : Int)
      (optimizer : Option POptimizer)
deriving DecidableEq, Repr

/-- The final step of a successful branch:
`model.load_state_dict(checkpoint['state_dict'])`, then
`return model, compression_scheduler, start_epoch`. -/
def loadStateDictStep (checkpoint : Dict) (model : PModel)
    (scheduler : Option PSched) (start_epoch : Int)
    (optimizer : Option POptimizer) (ev : List Event) :
    LoadOutcome × List Event :=
  match dlookup checkpoint "state_dict" with
  | some (V.sdict d) =>
      (LoadOutcome.ok (model.load_state_dict d) scheduler start_epoch optimizer, ev)
  | some _ => (LoadOutcome.typeError model optimizer, ev)
  | none => (LoadOutcome.keyError "state_dict" model optimizer, ev)

/-- Python `load_checkpoint(model, chkpt_file, optimizer)`.

The external collaborators are parameters: `mkScheduler` models
`distiller.CompressionScheduler(model)`, `schedLoadStateDict` models
`CompressionScheduler.load_state_dict`, and `executeThinningRecipe` models
`distiller.execute_thinning_recipe(model, zeros_mask_dict, recipe)`. -/
def load_checkpoint
    (mkScheduler : PModel → PSched)
    (schedLoadStateDict : PSched → SchedState → PSched)
    (executeThinningRecipe : PModel → MaskDict → Recipe → PModel)
    (model : PModel) (chkpt_file : String) (optimizer : Option POptimizer)
    (fs : FS) : LoadOutcome × List Event :=
  match fsRead fs chkpt_file with
  | none => (LoadOutcome.exit 1 model optimizer, [])
  | some checkpoint =>
    match dlookup checkpoint "epoch" with
    | none => (LoadOutcome.keyError "epoch" model optimizer, [])
    | some (V.int e) =>
      let start_epoch := e + 1
      let ev0 : List Event :=
        match dlookup checkpoint "best_top1" with
        | some _ => [Event.bestLogged]
        | none => []
      match dlookup checkpoint "compression_sched" with
      | some (V.sched st) =>
        let compression_scheduler := schedLoadStateDict (mkScheduler model) st
        let ev1 := ev0 ++ [Event.schedLoadedFromCheckpoint]
        match dlookup checkpoint "thinning_recipe" with
        | some (V.recipe r) =>
            let model1 :=
              executeThinningRecipe model compression_scheduler.zeros_mask_dict r
            loadStateDictStep checkpoint model1 (some compression_scheduler)
              start_epoch optimizer (ev1 ++ [Event.recipeExecuted])
        | some _ => (LoadOutcome.typeError model optimizer, ev1)
        | none =>
            loadStateDictStep checkpoint model (some compression_scheduler)
              start_epoch optimizer ev1
      | some _ => (LoadOutcome.typeError model optimizer, ev0)
      | none =>
          loadStateDictStep checkpoint model none start_epoch optimizer
            (ev0 ++ [Event.warnNoCompressionSched])
    | some _ => (LoadOutcome.typeError model optimizer, [])

/-- The model's `state_dict` on a successful return, if any. -/
def LoadOutcome.okStateDict : LoadOutcome → Option StateDict
  | .ok m _ _ _ => some m.sd
  | _ => none

/-- The returned scheduler component on a successful return, if any. -/
def LoadOutcome.okScheduler : LoadOutcome → Option (Option PSched)
  | .ok _ s _ _ => some s
  | _ => none

/-- The returned `start_epoch` on a successful return, if any. -/
def LoadOutcome.okStartEpoch : LoadOutcome → Option Int
  | .ok _ _ e _ => some e
  | _ => none

/-- The state of the `optimizer` argument when the call ends. -/
def LoadOutcome.finalOptimizer : LoadOutcome → Option POptimizer
  | .exit _ _ o => o
  | .keyError _ _ o => o
  | .typeError _ o => o
  | .ok _ _ _ o => o

end DistillerCheckpoint

namespace DistillerCheckpoint

/-! ## Helper lemmas -/

/-- For every `name`, the primary checkpoint filename differs from the
best-copy filename. -/
theorem checkpointFilename_ne_bestFilename (nm : Option String) :
    checkpointFilename nm ≠ bestFilename nm := by
  cases nm with
  | none => decide
  | some n =>
    intro h
    have hlen := congrArg String.length h
    simp [checkpointFilename, bestFilename, String.length_append] at hlen
    exact absurd hlen (by decide)

/-- After any `save_checkpoint`, reading the primary checkpoint file yields
the assembled record. -/
theorem fsRead_save_checkpoint (e : Int) (a : String) (m : PModel)
    (o : POptimizer) (s : Option PSched) (b : Option Rat) (ib : Bool)
    (nm : Option String) (fs : FS) :
    fsRead (save_checkpoint e a m o s b ib nm fs) (checkpointFilename nm)
      = some (buildCheckpoint e a m o s b) := by
  cases ib <;> simp [save_checkpoint, copyfile, fsWrite, fsRead]

/-! ## Claims -/

/-- C1: for every model and optimizer with arbitrary parameter values (and any
scheduler, best score, `is_best` flag, checkpoint name, prior file system,
model and optimizer passed at load time, and any implementation of the
external scheduler/thinning collaborators), `save_checkpoint` followed by
`load_checkpoint` on the file it produced returns successfully with the
model's `state_dict` bit-identical to the one exported at save time. -/
theorem C1_save_load_roundtrip_state_dict
    (mkS : PModel → PSched) (lS : PSched → SchedState → PSched)
    (eR : PModel → MaskDict → Recipe → PModel)
    (e : Int) (a : String) (m : PModel) (o : POptimizer) (s : Option PSched)
    (b : Option Rat) (ib : Bool) (nm : Option String) (fs : FS)
    (m2 : PModel) (o2 : Option POptimizer) :
    ((load_checkpoint mkS lS eR m2 (checkpointFilename nm) o2
        (save_checkpoint e a m o s b ib nm fs)).1).okStateDict
      = some m.state_dict := by
  obtain ⟨msd, mtr⟩ := m
  cases b <;> cases s <;> cases mtr <;> cases ib <;>
    simp [load_checkpoint, loadStateDictStep, save_checkpoint, copyfile, fsWrite,
      fsRead, buildCheckpoint, dlookup, PModel.state_dict, PModel.load_state_dict,
      PSched.state_dict, POptimizer.state_dict, LoadOutcome.okStateDict]

/-- C2: for every checkpoint saved with integer epoch `e`, `load_checkpoint`
on that file succeeds and returns `start_epoch = e + 1` as its third result. -/
theorem C2_start_epoch_eq_epoch_succ
    (mkS : PModel → PSched) (lS : PSched → SchedState → PSched)
    (eR : PModel → MaskDict → Recipe → PModel)
    (e : Int) (a : String) (m : PModel) (o : POptimizer) (s : Option PSched)
    (b : Option Rat) (ib : Bool) (nm : Option String) (fs : FS)
    (m2 : PModel) (o2 : Option POptimizer) :
    ((load_checkpoint mkS lS eR m2 (checkpointFilename nm) o2
        (save_checkpoint e a m o s b ib nm fs)).1).okStartEpoch
      = some (e + 1) := by
  obtain ⟨msd, mtr⟩ := m
  cases b <;> cases s <;> cases mtr <;> cases ib <;>
    simp [load_checkpoint, loadStateDictStep, save_checkpoint, copyfile, fsWrite,
      fsRead, buildCheckpoint, dlookup, PModel.state_dict, PModel.load_state_dict,
      PSched.state_dict, POptimizer.state_dict, LoadOutcome.okStartEpoch]

/-- C3: for every path that does not reference an existing file,
`load_checkpoint` terminates with exit code 1 (a terminating outcome, not a
raised `keyError`/`typeError`), the model and optimizer objects are carried
to the exit unmodified, and no events (in particular no `state_dict` load)
occurred. -/
theorem C3_missing_file_exits_1_model_unmodified
    (mkS : PModel → PSched) (lS : PSched → SchedState → PSched)
    (eR : PModel → MaskDict → Recipe → PModel)
    (m : PModel) (f : String) (o : Option POptimizer) (fs : FS)
    (h : fsRead fs f = none) :
    load_checkpoint mkS lS eR m f o fs = (LoadOutcome.exit 1 m o, []) := by
  unfold load_checkpoint
  rw [h]

/-- Witness for C3 at a concrete missing path. -/
theorem C3_missing_file_exits_1_model_unmodified_witness :
    load_checkpoint (fun _ => ⟨[], []⟩) (fun s st => { s with sched_state := st })
        (fun m _ _ => m) ⟨[("w", [1, 2])], none⟩ "nofile" (some ⟨[7]⟩)
        [("other", [("epoch", V.int 0)])]
      = (LoadOutcome.exit 1 ⟨[("w", [1, 2])], none⟩ (some ⟨[7]⟩), []) :=
  C3_missing_file_exits_1_model_unmodified _ _ _ _ _ _ _ (by decide)

end DistillerCheckpoint

namespace DistillerCheckpoint

/-- The scheduler component the call hands back: the returned scheduler on a
successful return, and `None` when the call never returns one. -/
def LoadOutcome.returnedScheduler : LoadOutcome → Option PSched
  | .ok _ s _ _ => s
  | _ => none

/-- C4: for every save with `scheduler=None`, the written record contains no
`compression_sched` key; loading that file returns `None` as the scheduler
component and takes the "does not exist" warning branch. -/
theorem C4_no_scheduler_saved_means_warning_and_none
    (mkS : PModel → PSched) (lS : PSched → SchedState → PSched)
    (eR : PModel → MaskDict → Recipe → PModel)
    (e : Int) (a : String) (m : PModel) (o : POptimizer)
    (b : Option Rat) (ib : Bool) (nm : Option String) (fs : FS)
    (m2 : PModel) (o2 : Option POptimizer) :
    dlookup (buildCheckpoint e a m o none b) "compression_sched" = none
    ∧ ((load_checkpoint mkS lS eR m2 (checkpointFilename nm) o2
          (save_checkpoint e a m o none b ib nm fs)).1).okScheduler = some none
    ∧ Event.warnNoCompressionSched ∈
        (load_checkpoint mkS lS eR m2 (checkpointFilename nm) o2
          (save_checkpoint e a m o none b ib nm fs)).2 := by
  obtain ⟨msd, mtr⟩ := m
  refine ⟨?_, ?_, ?_⟩ <;>
    cases b <;> cases mtr <;> cases ib <;>
      simp [load_checkpoint, loadStateDictStep, save_checkpoint, copyfile, fsWrite,
        fsRead, buildCheckpoint, dlookup, PModel.state_dict, PModel.load_state_dict,
        PSched.state_dict, POptimizer.state_dict, LoadOutcome.okScheduler]

/-- C5: for every model exposing a `thinning_recipe` attribute,
`save_checkpoint` includes the `thinning_recipe` field in the written record,
for every scheduler argument — in particular `scheduler=None`. -/
theorem C5_thinning_recipe_saved_independent_of_scheduler
    (e : Int) (a : String) (msd : StateDict) (r : Recipe) (o : POptimizer)
    (s : Option PSched) (b : Option Rat) (ib : Bool) (nm : Option String)
    (fs : FS) :
    dlookup (buildCheckpoint e a ⟨msd, some r⟩ o s b) "thinning_recipe"
      = some (V.recipe r)
    ∧ (fsRead (save_checkpoint e a ⟨msd, some r⟩ o s b ib nm fs)
          (checkpointFilename nm)).map (fun d => dlookup d "thinning_recipe")
        = some (some (V.recipe r)) := by
  have hkey : dlookup (buildCheckpoint e a ⟨msd, some r⟩ o s b) "thinning_recipe"
      = some (V.recipe r) := by
    cases b <;> cases s <;>
      simp [buildCheckpoint, dlookup, PModel.state_dict, PSched.state_dict,
        POptimizer.state_dict]
  exact ⟨hkey, by rw [fsRead_save_checkpoint]; simp only [Option.map]; exact congrArg some hkey⟩

/-- C6: for every loaded record lacking the `compression_sched` key,
`load_checkpoint` hands back no scheduler and never executes the thinning
recipe, even when the record has a `thinning_recipe` field. -/
theorem C6_no_sched_key_skips_recipe
    (mkS : PModel → PSched) (lS : PSched → SchedState → PSched)
    (eR : PModel → MaskDict → Recipe → PModel)
    (m : PModel) (f : String) (o : Option POptimizer) (fs : FS) (d : Dict)
    (hread : fsRead fs f = some d)
    (hnosched : dlookup d "compression_sched" = none) :
    Event.recipeExecuted ∉ (load_checkpoint mkS lS eR m f o fs).2
    ∧ ((load_checkpoint mkS lS eR m f o fs).1).returnedScheduler = none := by
  unfold load_checkpoint
  rw [hread]
  rcases hep : dlookup d "epoch" with _ | vep <;> simp only [hep]
  · exact ⟨by simp, rfl⟩
  cases vep <;> simp only [hnosched] <;>
    try exact ⟨by simp, rfl⟩
  rcases hb : dlookup d "best_top1" with _ | vb <;> simp only [hb] <;>
    rcases hsd : dlookup d "state_dict" with _ | vsd <;>
      simp only [loadStateDictStep, hsd] <;>
        first
        | exact ⟨by simp, rfl⟩
        | (cases vsd <;> exact ⟨by simp, rfl⟩)

/-- Witness for C6: a record holding a `thinning_recipe` but no
`compression_sched`. -/
theorem C6_no_sched_key_skips_recipe_witness :
    Event.recipeExecuted ∉
      (load_checkpoint (fun _ => ⟨[], []⟩) (fun s st => { s with sched_state := st })
        (fun m _ _ => m) ⟨[], none⟩ "f" none
        [("f", [("epoch", V.int 0), ("thinning_recipe", V.recipe [5]),
                ("state_dict", V.sdict [("w", [9])])])]).2
    ∧ ((load_checkpoint (fun _ => ⟨[], []⟩) (fun s st => { s with sched_state := st })
        (fun m _ _ => m) ⟨[], none⟩ "f" none
        [("f", [("epoch", V.int 0), ("thinning_recipe", V.recipe [5]),
                ("state_dict", V.sdict [("w", [9])])])]).1).returnedScheduler
      = none :=
  C6_no_sched_key_skips_recipe (fun _ => ⟨[], []⟩)
    (fun s st => { s with sched_state := st }) (fun m _ _ => m)
    ⟨[], none⟩ "f" none
    [("f", [("epoch", V.int 0), ("thinning_recipe", V.recipe [5]),
            ("state_dict", V.sdict [("w", [9])])])]
    [("epoch", V.int 0), ("thinning_recipe", V.recipe [5]),
     ("state_dict", V.sdict [("w", [9])])]
    (by decide) (by decide)

/-- C7: for every call to `load_checkpoint`, on every termination path, the
optimizer argument comes out exactly as it went in: the optimizer state that
`save_checkpoint` stores in the record is never restored into it. -/
theorem C7_optimizer_never_restored
    (mkS : PModel → PSched) (lS : PSched → SchedState → PSched)
    (eR : PModel → MaskDict → Recipe → PModel)
    (m : PModel) (f : String) (o : Option POptimizer) (fs : FS) :
    (load_checkpoint mkS lS eR m f o fs).1.finalOptimizer = o := by
  unfold load_checkpoint loadStateDictStep
  repeat' split
  all_goals rfl

end DistillerCheckpoint

namespace DistillerCheckpoint

/-- C8: with `is_best=True` the best-named file's contents are byte-identical
to the primary checkpoint file's contents immediately after the save; with
`is_best=False` only the primary file is written and the best-named file is
untouched. -/
theorem C8_best_copy_iff_is_best
    (e : Int) (a : String) (m : PModel) (o : POptimizer) (s : Option PSched)
    (b : Option Rat) (nm : Option String) (fs : FS) :
    fsRead (save_checkpoint e a m o s b true nm fs) (bestFilename nm)
      = fsRead (save_checkpoint e a m o s b true nm fs) (checkpointFilename nm)
    ∧ save_checkpoint e a m o s b false nm fs
        = fsWrite fs (checkpointFilename nm) (buildCheckpoint e a m o s b)
    ∧ fsRead (save_checkpoint e a m o s b false nm fs) (bestFilename nm)
        = fsRead fs (bestFilename nm) := by
  have h := checkpointFilename_ne_bestFilename nm
  refine ⟨?_, rfl, ?_⟩
  · simp [save_checkpoint, copyfile, fsWrite, fsRead]
  · simp [save_checkpoint, fsWrite, fsRead, h]

/-- C9: the primary file is named `<name>_checkpoint.pth.tar` when a name is
given and `checkpoint.pth.tar` otherwise; the best-copy file is named
`<name>_best.pth.tar` when a name is given and `best.pth.tar` otherwise; and
`save_checkpoint` writes the record at exactly those names. -/
theorem C9_filename_convention
    (n : String) (nm : Option String) (e : Int) (a : String) (m : PModel)
    (o : POptimizer) (s : Option PSched) (b : Option Rat) (ib : Bool) (fs : FS) :
    checkpointFilename (some n) = n ++ "_checkpoint.pth.tar"
    ∧ checkpointFilename none = "checkpoint.pth.tar"
    ∧ bestFilename (some n) = n ++ "_best.pth.tar"
    ∧ bestFilename none = "best.pth.tar"
    ∧ fsRead (save_checkpoint e a m o s b ib nm fs) (checkpointFilename nm)
        = some (buildCheckpoint e a m o s b)
    ∧ fsRead (save_checkpoint e a m o s b true nm fs) (bestFilename nm)
        = some (buildCheckpoint e a m o s b) := by
  refine ⟨rfl, rfl, rfl, rfl, fsRead_save_checkpoint e a m o s b ib nm fs, ?_⟩
  simp [save_checkpoint, copyfile, fsWrite, fsRead]

/-- C10: every record written by `save_checkpoint` has the keys `epoch`,
`arch`, `state_dict` and `optimizer`; has `best_top1` exactly when a best
score was supplied; and its key sequence is a sublist of the seven data-model
fields in their canonical order, so no key outside the data model occurs. -/
theorem C10_record_key_invariants
    (e : Int) (a : String) (m : PModel) (o : POptimizer) (s : Option PSched)
    (b : Option Rat) :
    "epoch" ∈ dkeys (buildCheckpoint e a m o s b)
    ∧ "arch" ∈ dkeys (buildCheckpoint e a m o s b)
    ∧ "state_dict" ∈ dkeys (buildCheckpoint e a m o s b)
    ∧ "optimizer" ∈ dkeys (buildCheckpoint e a m o s b)
    ∧ (("best_top1" ∈ dkeys (buildCheckpoint e a m o s b)) ↔ b.isSome = true)
    ∧ List.Sublist (dkeys (buildCheckpoint e a m o s b))
        ["epoch", "arch", "state_dict", "best_top1", "optimizer",
         "compression_sched", "thinning_recipe"] := by
  obtain ⟨msd, mtr⟩ := m
  cases b <;> cases s <;> cases mtr <;>
    refine ⟨by simp [buildCheckpoint, dkeys], by simp [buildCheckpoint, dkeys],
      by simp [buildCheckpoint, dkeys], by simp [buildCheckpoint, dkeys],
      by simp [buildCheckpoint, dkeys], ?_⟩ <;>
    · show List.Sublist _ _
      simp only [buildCheckpoint, dkeys, List.map_append, List.map_cons,
        List.map_nil]
      decide

end DistillerCheckpoint
